import Mathlib

/-!
Verification development for the `video_analysis_agent` repository
(`src/main.py` and `src/video_analysis_agent/agent.py`).

The Python code is shallowly embedded: Python strings are Lean `String`s
(Python indexes strings by code point, so `String.data : List Char`
manipulations model Python slicing and splitting exactly), byte blobs are
`List Nat`, fallible calls are `Except`/`Option`, and the external services
(GCS download, Cloud Tasks client, ADK runner stream) are parameters of the
embedded handlers so theorems can quantify over their behaviour.
-/

namespace VideoAnalysisAgent

deriving instance DecidableEq for Except

/-! Small helper lemmas about list splitting used by the embeddings -/

theorem takeWhile_append_all {p : Char → Bool} {a : List Char} (b : List Char)
    (h : ∀ x ∈ a, p x) : (a ++ b).takeWhile p = a ++ b.takeWhile p := by
  induction a with
  | nil => simp
  | cons x xs ih =>
    have hx : p x := h x (List.mem_cons_self x xs)
    simp only [List.cons_append, List.takeWhile_cons, hx, if_true]
    rw [ih (fun y hy => h y (List.mem_cons_of_mem x hy))]

theorem dropWhile_append_all {p : Char → Bool} {a : List Char} (b : List Char)
    (h : ∀ x ∈ a, p x) : (a ++ b).dropWhile p = b.dropWhile p := by
  induction a with
  | nil => simp
  | cons x xs ih =>
    have hx : p x := h x (List.mem_cons_self x xs)
    simp only [List.cons_append, List.dropWhile_cons, hx, if_true]
    exact ih (fun y hy => h y (List.mem_cons_of_mem x hy))

theorem takeWhile_append_stop {p : Char → Bool} {c : Char} (hc : ¬ p c)
    (a b : List Char) : (a ++ c :: b).takeWhile p = a.takeWhile p := by
  induction a with
  | nil => simp [List.takeWhile_cons, hc]
  | cons x xs ih =>
    by_cases hx : p x
    · simp only [List.cons_append, List.takeWhile_cons, hx, if_true]
      rw [ih]
    · simp [List.takeWhile_cons, hx]

theorem dataAppend (s t : String) : (s ++ t).data = s.data ++ t.data := rfl

theorem mkData (s : String) : String.mk s.data = s := rfl

/-! BigQuery toolset configuration of (`agent.py`)

`WriteMode` is the ADK enum `google.adk.tools.bigquery.config.WriteMode`
with its three members: `BLOCKED` (no writes), `PROTECTED` (writes only to
session temporary data), `ALLOWED` (unrestricted writes). -/

inductive WriteMode where
  | BLOCKED
  | PROTECTED
  | ALLOWED
deriving DecidableEq

structure BigQueryToolConfig where
  write_mode : WriteMode
deriving DecidableEq

/-- From `agent.py`: `tool_config = BigQueryToolConfig(write_mode=WriteMode.ALLOWED)`
(the adjacent source comment reads "Define a tool configuration to block any
write operations"). -/
def tool_config : BigQueryToolConfig := { write_mode := WriteMode.ALLOWED }

structure BigQueryToolset where
  bigquery_tool_config : BigQueryToolConfig
deriving DecidableEq

/-- From `agent.py`: the toolset bound to `bq_agent`, instantiated with
`bigquery_tool_config=tool_config`. -/
def bigquery_toolset : BigQueryToolset := { bigquery_tool_config := tool_config }

/-! The GCS event model and its pydantic JSON serialization (`main.py`) -/

structure GcsEvent where
  bucket : String
  name : String
deriving DecidableEq

def hexDigit (n : Nat) : Char :=
  if n < 10 then Char.ofNat (48 + n) else Char.ofNat (87 + n)

/-- JSON string escaping as performed by `pydantic.BaseModel.model_dump_json`
(serde-style minimal escaping of `"`, backslash and control characters). -/
def jsonEscapeChar (c : Char) : List Char :=
  if c = '"' then ['\\', '"']
  else if c = '\\' then ['\\', '\\']
  else if c = '\n' then ['\\', 'n']
  else if c = '\t' then ['\\', 't']
  else if c = '\r' then ['\\', 'r']
  else if c.toNat = 8 then ['\\', 'b']
  else if c.toNat = 12 then ['\\', 'f']
  else if c.toNat < 32 then
    ['\\', 'u', '0', '0', hexDigit (c.toNat / 16), hexDigit (c.toNat % 16)]
  else [c]

def jsonQuote (s : String) : String :=
  String.mk ('"' :: (s.data.map jsonEscapeChar).flatten ++ ['"'])

/-- From `main.py`: `event.model_dump_json()` for the two-field `GcsEvent` model,
fields in declaration order. -/
def model_dump_json (e : GcsEvent) : String :=
  "\x7b\"bucket\":" ++ jsonQuote e.bucket ++ ",\"name\":" ++ jsonQuote e.name ++ "\x7d"

/-! Cloud Tasks task descriptor and the enqueue handler (`main.py`) -/

inductive HttpMethod where
  | POST
  | GET
deriving DecidableEq

structure OidcToken where
  service_account_email : String
  audience : String
deriving DecidableEq

structure HttpRequestSpec where
  http_method : HttpMethod
  url : String
  oidc_token : OidcToken
  headers : List (String × String)
  body : String
deriving DecidableEq

structure CloudTask where
  http_request : HttpRequestSpec
  dispatch_deadline : String
deriving DecidableEq

/-- From `main.py` (`gcs_trigger`): the `task` dictionary handed to
`tasks_client.create_task`, built from `SERVICE_URL`, `SERVICE_EMAIL` and the
serialized event string. -/
def buildTask (service_url service_email event_str : String) : CloudTask where
  http_request :=
    { http_method := HttpMethod.POST
      url := service_url ++ "/process-asset"
      oidc_token :=
        { service_account_email := service_email
          audience := service_url ++ "/process-asset" }
      headers := [("Content-type", "application/json")]
      body := event_str }
  dispatch_deadline := "1800s"

/-- Bodies of the HTTP responses produced by the FastAPI handlers:
`Response(status_code=204)` has an empty body, `HTTPException(code, detail=d)`
is rendered as a JSON object with a `detail` field, and `process_asset`
returns a dict rendered as a JSON object with `status` and `response`
fields. -/
inductive RespBody where
  | empty
  | detail (d : String)
  | statusResponse (status response : String)
deriving DecidableEq

structure HttpResponse where
  status_code : Nat
  body : RespBody
deriving DecidableEq

structure TriggerResult where
  response : HttpResponse
  /-- the task descriptor passed to `tasks_client.create_task` -/
  submitted : CloudTask
  /-- tasks actually created on the queue (empty when the client raised) -/
  created : List CloudTask
deriving DecidableEq

/-- Handler `gcs_trigger` of `main.py`: serialize the event, build the task
descriptor, submit it; `204` with empty body on success, and on any exception
from the client, `HTTPException(500, detail=f"Failed to create task: {e}")`.
The Cloud Tasks client is a parameter `create_task`. -/
def gcs_trigger (service_url service_email : String)
    (create_task : CloudTask → Except String Unit) (event : GcsEvent) :
    TriggerResult :=
  let event_str := model_dump_json event
  let task := buildTask service_url service_email event_str
  match create_task task with
  | Except.ok _ =>
      { response := { status_code := 204, body := RespBody.empty }
        submitted := task
        created := [task] }
  | Except.error e =>
      { response :=
          { status_code := 500
            body := RespBody.detail ("Failed to create task: " ++ e) }
        submitted := task
        created := [] }

/-! The artifact store adapter `add_artifact_from_gcs` (`agent.py`) -/

/-- Python `path_part.split('/', 1)` unpacked into two variables: splits at
the first `/`; when the string contains no `/` the unpacking raises a
`ValueError`, modelled as `none`. -/
def splitOnce (s : String) : Option (String × String) :=
  if '/' ∈ s.data then
    some (String.mk (s.data.takeWhile (fun c => c ≠ '/')),
          String.mk ((s.data.dropWhile (fun c => c ≠ '/')).drop 1))
  else none

/-- Python `uri.rsplit('/', 1)` last element: the part of `s` after its last
`/`, or all of `s` when it has none. -/
def afterLastSlash (s : String) : String :=
  String.mk ((s.data.reverse.takeWhile (fun c => c ≠ '/')).reverse)

/-- Python `posixpath.splitext`: `(root, ext)` where `ext` is the suffix from
the last dot of the final path component, except that a component whose
characters before that dot are all dots (a dotfile such as `.json`) has no
extension, and a dot inside an earlier component does not count. -/
def splitext (p : String) : String × String :=
  let rcs := p.data.reverse
  let afterDot := rcs.takeWhile (fun c => c ≠ '.')
  let stem := ((rcs.dropWhile (fun c => c ≠ '.')).drop 1).takeWhile
    (fun c => c ≠ '/')
  if ¬ '/' ∈ afterDot ∧ stem.any (fun c => c ≠ '.') then
    (String.mk (((rcs.dropWhile (fun c => c ≠ '.')).drop 1).reverse),
     String.mk ('.' :: afterDot.reverse))
  else (p, "")

/-- The relevant rows of the static extension table of Python `mimetypes`
(`types_map[True]`, all-lowercase keys), consulted by
`mimetypes.guess_type`. The rows are those of the interpreter's built-in
default table; entries merged from environment files such as
`/etc/mime.types` vary per host and are not modelled. -/
def types_map : List (String × String) :=
  [(".json", "application/json"), (".pdf", "application/pdf"),
   (".png", "image/png"), (".jpg", "image/jpeg"), (".jpeg", "image/jpeg"),
   (".gif", "image/gif"), (".mp4", "video/mp4"), (".mov", "video/quicktime"),
   (".webm", "video/webm"), (".mp3", "audio/mpeg"), (".txt", "text/plain"),
   (".html", "text/html"), (".csv", "text/csv"), (".tar", "application/x-tar"),
   (".svg", "image/svg+xml")]

/-- Python `mimetypes.suffix_map`: compound suffixes rewritten before type
inference (looked up case-insensitively). -/
def suffix_map : List (String × String) :=
  [(".svgz", ".svg.gz"), (".tgz", ".tar.gz"), (".taz", ".tar.gz"),
   (".tz", ".tar.gz"), (".tbz2", ".tar.bz2"), (".txz", ".tar.xz")]

/-- Python `mimetypes.encodings_map`: compression suffixes stripped before
type inference, recorded as the encoding (looked up case-sensitively). -/
def encodings_map : List (String × String) :=
  [(".gz", "gzip"), (".Z", "compress"), (".bz2", "bzip2"), (".xz", "xz"),
   (".br", "br")]

def table_lookup (t : List (String × String)) (k : String) : Option String :=
  (t.find? (fun row => row.1 = k)).map Prod.snd

/-- ASCII lowercasing (Python `str.lower()`; every key involved is ASCII). -/
def lowerAscii (s : String) : String :=
  String.mk (s.data.map (fun c =>
    if 65 ≤ c.toNat ∧ c.toNat ≤ 90 then Char.ofNat (c.toNat + 32) else c))

/-- Python `urllib.parse._splittype` (as called by `mimetypes.guess_type` on
Python 3.11): the regex `([^/:]+):(.*)` anchored at the start — when the URL
has a nonempty run of characters other than `/` and `:` followed by a `:`,
that run (lowercased) is the scheme and the remainder after the colon
replaces the URL; otherwise the URL is unchanged and there is no scheme. -/
def splitType (url : String) : Option String × String :=
  let pre := url.data.takeWhile (fun c => c ≠ ':' ∧ c ≠ '/')
  let post := url.data.dropWhile (fun c => c ≠ ':' ∧ c ≠ '/')
  if pre ≠ [] ∧ post.head? = some ':' then
    (some (lowerAscii (String.mk pre)), String.mk post.tail)
  else (none, url)

/-- The `scheme == 'data'` branch of `mimetypes.guess_type`: a data URL with
no comma is bad (`(None, None)`); otherwise the mediatype is the text before
the first `;` (bounded by the first `,`), defaulted to `text/plain` when it
carries a parameter (`=`) or no `/`. -/
def guessDataUrl (url : String) : Option String × Option String :=
  if ',' ∈ url.data then
    let typ := (url.data.takeWhile (fun c => c ≠ ',')).takeWhile
      (fun c => c ≠ ';')
    if '=' ∈ typ ∨ ¬ '/' ∈ typ then (some "text/plain", none)
    else (some (String.mk typ), none)
  else (none, none)

/-- The `while ext.lower() in suffix_map` loop of `mimetypes.guess_type`:
rewrite `base ++ suffix_map[ext.lower()]` and split again. Every value of
`suffix_map` splits to a `.gz`/`.bz2`/`.xz` extension, which is not a
`suffix_map` key, so the loop stops after at most one rewrite; the fuel
passed at the call site covers that bound. -/
def applySuffixMap : Nat → String × String → String × String
  | 0, be => be
  | fuel + 1, (base, ext) =>
    match table_lookup suffix_map (lowerAscii ext) with
    | some repl => applySuffixMap fuel (splitext (base ++ repl))
    | none => (base, ext)

/-- The non-data path of `mimetypes.guess_type` (Python 3.11, default
`strict=True`): split off the extension, rewrite compound suffixes, strip a
(case-sensitive) compression suffix into the encoding, then look the
lowercased extension up in the type table. -/
def guessFileType (url : String) : Option String × Option String :=
  let be := applySuffixMap (suffix_map.length + 1) (splitext url)
  match table_lookup encodings_map be.2 with
  | some enc =>
    (table_lookup types_map (lowerAscii (splitext be.1).2), some enc)
  | none => (table_lookup types_map (lowerAscii be.2), none)

/-- Python `mimetypes.guess_type(url)` (Python 3.11): split a scheme with
`_splittype`; a `data` scheme takes the data-URL branch; any other scheme is
dropped together with the text before the colon; then infer
`(type, encoding)` from the remaining string's suffixes. -/
def guess_type (url : String) : Option String × Option String :=
  match splitType url with
  | (some scheme, rest) =>
    if scheme = "data" then guessDataUrl rest else guessFileType rest
  | (none, rest) => guessFileType rest

/-- Exceptions the adapter can raise: the `ValueError` from unpacking
`split('/', 1)` of a separator-free string, and the storage client's
not-found error when the blob does not exist. -/
inductive PyError where
  | valueError
  | notFound
deriving DecidableEq

/-- ADK artifact scope: a filename carrying the `user:` prefix is stored in
the user namespace, any other filename in the session namespace (per the
source comment on the `filename =` lines of `add_artifact_from_gcs`). -/
inductive ArtifactScope where
  | session
  | user
deriving DecidableEq

structure SavedArtifact where
  filename : String
  mime_type : Option String
  bytes : List Nat
  scope : ArtifactScope
deriving DecidableEq

/-- Tool `add_artifact_from_gcs` of `agent.py`. The GCS client is the parameter
`storage : bucket → blob → Option bytes` (`none` models a failing
`download_as_bytes`). Mirrors the source line by line:
`path_part = uri[len("gs://"):]` (an unconditional five-character slice, no
scheme check), `bucket_name, blob_name = path_part.split('/', 1)`,
`filename = uri.rsplit('/', 1)[-1]`,
`mime_type, encoding = mimetypes.guess_type(filename)`, the
`application/json → text/plain` override, and the session-scoped
`save_artifact` call, whose saved artifact is the returned value. -/
def add_artifact_from_gcs (storage : String → String → Option (List Nat))
    (uri : String) : Except PyError SavedArtifact :=
  let path_part := String.mk (uri.data.drop 5)
  match splitOnce path_part with
  | none => Except.error PyError.valueError
  | some (bucket_name, blob_name) =>
    match storage bucket_name blob_name with
    | none => Except.error PyError.notFound
    | some file_bytes =>
      let filename := afterLastSlash uri
      let mime0 := (guess_type filename).1
      let mime_type := if mime0 = some "application/json" then some "text/plain" else mime0
      let scope := if "user:".data <+: filename.data then ArtifactScope.user
                   else ArtifactScope.session
      Except.ok
        { filename := filename, mime_type := mime_type,
          bytes := file_bytes, scope := scope }

/-! The artifact listing tool `list_artifacts` (`agent.py`) -/

/-- Outcome of `await tool_context.list_artifacts()`: a filename list, or one
of the two exception classes the tool catches. -/
inductive ArtifactListOutcome where
  | ok (files : List String)
  | valueError (msg : String)
  | otherError (msg : String)

/-- Python `sep.join(l)`. -/
def joinStr (sep : String) : List String → String
  | [] => ""
  | [s] => s
  | s :: rest => s ++ sep ++ joinStr sep rest

/-- Tool `list_artifacts` of `agent.py`: a total function of the underlying
service's outcome — every branch, including both exception handlers, returns
a plain string, so the tool never raises past its boundary. -/
def list_artifacts : ArtifactListOutcome → String
  | ArtifactListOutcome.ok [] => "You have no saved artifacts."
  | ArtifactListOutcome.ok (f :: fs) =>
      "Here are your available Python artifacts:\n" ++
        joinStr "\n" ((f :: fs).map (fun fname => "- " ++ fname))
  | ArtifactListOutcome.valueError _ => "Error: Could not list Python artifacts."
  | ArtifactListOutcome.otherError _ =>
      "Error: An unexpected error occurred while listing Python artifacts."

/-! The worker handler `process_asset` (`main.py`) -/

/-- One event of the ADK runner stream, keeping the fields `process_asset`
inspects: `is_final_response()`, the texts of `content.parts` (empty list
models a missing/empty content), whether `actions` is present with
`escalate` truthy, and `error_message`. -/
structure AgentEvent where
  is_final_response : Bool
  content_parts : List String
  escalate : Bool
  error_message : Option String

/-- Python `x or default` for an optional string: `None` and the empty
string are falsy. -/
def pyOr (m : Option String) (dflt : String) : String :=
  match m with
  | none => dflt
  | some s => if s = "" then dflt else s

/-- The `async for ... if event.is_final_response(): ... break` loop of
`process_asset`, returning the final `final_response_text`. -/
def finalResponseText : List AgentEvent → String
  | [] => "Agent did not produce a final response."
  | e :: rest =>
    if e.is_final_response then
      match e.content_parts with
      | t :: _ => t
      | [] =>
        if e.escalate then
          "Agent escalated: " ++ pyOr e.error_message "No specific message."
        else "Agent did not produce a final response."
    else finalResponseText rest

/-- A session key as handed to `session_service.create_session`. -/
structure SessionKey where
  app_name : String
  session_id : String
  user_id : String
deriving DecidableEq

structure WorkerResult where
  response : HttpResponse
  /-- sessions created by this invocation, in order -/
  created_sessions : List SessionKey
deriving DecidableEq

/-- Handler `process_asset` of `main.py`. The fresh `str(uuid.uuid4())` value is
the parameter `session_id`; the ADK runner is the parameter
`run_async : user_id → session_id → message_text → events` (`Except.error`
models an exception escaping `runner.run_async`, which the handler converts
to `HTTPException(500, detail=str(e))`). Exactly one
`session_service.create_session` call is made, before the runner loop. -/
def process_asset (session_id : String)
    (run_async : String → String → String → Except String (List AgentEvent))
    (event : GcsEvent) : WorkerResult :=
  let event_str := model_dump_json event
  let user_id := "gcs_trigger_user"
  let created := [{ app_name := "video_analysis_agent",
                    session_id := session_id, user_id := user_id : SessionKey }]
  match run_async user_id session_id event_str with
  | Except.error e =>
      { response := { status_code := 500, body := RespBody.detail e }
        created_sessions := created }
  | Except.ok events =>
      { response :=
          { status_code := 200
            body := RespBody.statusResponse "success" (finalResponseText events) }
        created_sessions := created }

/-! Request-body validation of the `GcsEvent` pydantic model (`main.py`)

Both endpoints declare their body as the pydantic model
`class GcsEvent(BaseModel): bucket: str; name: str`. FastAPI validates the
JSON body against that declaration before either handler body runs and
answers `422 Unprocessable Entity` on failure; the model below is the
semantics of that declaration: the body must be a JSON object whose
`bucket` and `name` members are JSON strings (pydantic v2 does not coerce
non-string JSON values to `str`, extra members are ignored, a repeated
member keeps its last occurrence as Python's JSON parser does). -/

inductive JsonValue where
  | null
  | bool (b : Bool)
  | num (n : Int)
  | str (s : String)
  | arr (xs : List JsonValue)
  | obj (fields : List (String × JsonValue))

/-- Last-occurrence-wins field lookup (Python dicts built from JSON keep the
last duplicate). -/
def lookupField : List (String × JsonValue) → String → Option JsonValue
  | [], _ => none
  | (k, v) :: rest, key =>
    match lookupField rest key with
    | some v' => some v'
    | none => if k = key then some v else none

def validateGcsEvent : JsonValue → Option GcsEvent
  | JsonValue.obj fields =>
    match lookupField fields "bucket", lookupField fields "name" with
    | some (JsonValue.str b), some (JsonValue.str n) => some { bucket := b, name := n }
    | _, _ => none
  | _ => none

/-- The `/gcs-trigger` endpoint including FastAPI's model validation: a body
that fails validation is answered `422` and the handler body never runs, so
no task is submitted or created. -/
def gcs_trigger_endpoint (service_url service_email : String)
    (create_task : CloudTask → Except String Unit) (body : JsonValue) :
    HttpResponse × List CloudTask :=
  match validateGcsEvent body with
  | none => ({ status_code := 422, body := RespBody.detail "Unprocessable Entity" }, [])
  | some event =>
    let r := gcs_trigger service_url service_email create_task event
    (r.response, r.created)

/-- The `/process-asset` endpoint including FastAPI's model validation: a
body that fails validation is answered `422` and the handler body never
runs, so no session is created. -/
def process_asset_endpoint (session_id : String)
    (run_async : String → String → String → Except String (List AgentEvent))
    (body : JsonValue) : HttpResponse × List SessionKey :=
  match validateGcsEvent body with
  | none => ({ status_code := 422, body := RespBody.detail "Unprocessable Entity" }, [])
  | some event =>
    let r := process_asset session_id run_async event
    (r.response, r.created_sessions)

/-! Theorems about the claims -/

/-- C1 (counterexample): the write-mode flag passed to the BigQuery toolset
configuration is `WriteMode.ALLOWED` — the unrestricted-writes member of the
enum — and in particular is neither of the two restricted members, so it is
not an insert-only (blocked-except-insert) mode. -/
theorem c1_write_mode_counterexample :
    bigquery_toolset.bigquery_tool_config.write_mode = WriteMode.ALLOWED ∧
    WriteMode.ALLOWED ≠ WriteMode.BLOCKED ∧
    WriteMode.ALLOWED ≠ WriteMode.PROTECTED := by
  decide

/-- C1 (amended): the query toolset bound to the ingestion agent is
configured with `write_mode = WriteMode.ALLOWED`, the unrestricted-writes
mode; the adjacent source comment about blocking write operations does not
match the configured value. -/
theorem c1_write_mode_is_allowed :
    tool_config.write_mode = WriteMode.ALLOWED ∧
    bigquery_toolset.bigquery_tool_config = tool_config := by
  decide

/-- C3: for every event, when the queue client accepts the submitted task the
enqueue handler answers HTTP 204 with an empty body, and when the client
raises with message `msg` it answers HTTP 500 whose `detail` body contains
`msg`. -/
theorem c3_gcs_trigger_responses (service_url service_email : String)
    (create_task : CloudTask → Except String Unit) (event : GcsEvent) :
    (create_task (buildTask service_url service_email (model_dump_json event)) =
        Except.ok () →
      (gcs_trigger service_url service_email create_task event).response =
        { status_code := 204, body := RespBody.empty }) ∧
    (∀ msg,
      create_task (buildTask service_url service_email (model_dump_json event)) =
          Except.error msg →
      (gcs_trigger service_url service_email create_task event).response.status_code
          = 500 ∧
      ∃ d, (gcs_trigger service_url service_email create_task event).response.body
          = RespBody.detail d ∧ msg.data <:+: d.data) := by
  constructor
  · intro h
    simp [gcs_trigger, h]
  · intro msg h
    refine ⟨?_, "Failed to create task: " ++ msg, ?_, ?_⟩
    · simp [gcs_trigger, h]
    · simp [gcs_trigger, h]
    · exact ⟨"Failed to create task: ".data, [], by simp [dataAppend]⟩

/-- C3 (witness): both branches of `c3_gcs_trigger_responses` instantiated at
a concrete event with a concrete accepting and a concrete raising client. -/
theorem c3_gcs_trigger_responses_witness :
    ((gcs_trigger "https://svc" "sa@x" (fun _ => Except.ok ())
        { bucket := "b1", name := "video.mp4" }).response =
      { status_code := 204, body := RespBody.empty }) ∧
    ((gcs_trigger "https://svc" "sa@x" (fun _ => Except.error "boom")
        { bucket := "b1", name := "video.mp4" }).response.status_code = 500) := by
  constructor
  · exact (c3_gcs_trigger_responses "https://svc" "sa@x" (fun _ => Except.ok ())
      { bucket := "b1", name := "video.mp4" }).1 rfl
  · exact ((c3_gcs_trigger_responses "https://svc" "sa@x" (fun _ => Except.error "boom")
      { bucket := "b1", name := "video.mp4" }).2 "boom" rfl).1

/-- C4: for every event and configuration, the task descriptor submitted by
the enqueue handler has HTTP method POST, target URL
`service_url ++ "/process-asset"`, an OIDC token whose audience equals that
URL (and the configured service-account email), a `Content-type:
application/json` header, a body equal to the JSON serialization of the
event, and the fixed dispatch deadline `"1800s"` (1800 seconds); every task
actually created on the queue is that descriptor. -/
theorem c4_task_descriptor (service_url service_email : String)
    (create_task : CloudTask → Except String Unit) (event : GcsEvent) :
    let t := (gcs_trigger service_url service_email create_task event).submitted
    t.http_request.http_method = HttpMethod.POST ∧
    t.http_request.url = service_url ++ "/process-asset" ∧
    t.http_request.oidc_token.audience = t.http_request.url ∧
    t.http_request.oidc_token.service_account_email = service_email ∧
    t.http_request.headers = [("Content-type", "application/json")] ∧
    t.http_request.body = model_dump_json event ∧
    t.dispatch_deadline = "1800s" ∧
    ((gcs_trigger service_url service_email create_task event).created = [] ∨
     (gcs_trigger service_url service_email create_task event).created = [t]) := by
  cases h : create_task (buildTask service_url service_email (model_dump_json event)) with
  | ok u => cases u; simp_all [gcs_trigger, buildTask]
  | error e => simp_all [gcs_trigger, buildTask]

theorem dataMk (l : List Char) : (String.mk l).data = l := rfl

/-- Unfolding lemma for `add_artifact_from_gcs` with the local `let`
bindings inlined. -/
theorem add_artifact_eq (storage : String → String → Option (List Nat))
    (uri : String) :
    add_artifact_from_gcs storage uri =
      match splitOnce (String.mk (uri.data.drop 5)) with
      | none => Except.error PyError.valueError
      | some (bucket_name, blob_name) =>
        match storage bucket_name blob_name with
        | none => Except.error PyError.notFound
        | some file_bytes =>
          Except.ok
            { filename := afterLastSlash uri
              mime_type :=
                if (guess_type (afterLastSlash uri)).1 = some "application/json"
                then some "text/plain" else (guess_type (afterLastSlash uri)).1
              bytes := file_bytes
              scope :=
                if "user:".data <+: (afterLastSlash uri).data
                then ArtifactScope.user else ArtifactScope.session } := rfl

/-- Inversion of a successful `add_artifact_from_gcs` call: the saved
artifact's fields in terms of the input URI, and the bucket/blob pair that
was fetched. Shared by several claims. -/
theorem add_artifact_ok_inv {storage : String → String → Option (List Nat)}
    {uri : String} {art : SavedArtifact}
    (h : add_artifact_from_gcs storage uri = Except.ok art) :
    art.filename = afterLastSlash uri ∧
    art.mime_type =
      (if (guess_type (afterLastSlash uri)).1 = some "application/json"
       then some "text/plain" else (guess_type (afterLastSlash uri)).1) ∧
    art.scope =
      (if "user:".data <+: (afterLastSlash uri).data
       then ArtifactScope.user else ArtifactScope.session) ∧
    ∃ b bl, splitOnce (String.mk (uri.data.drop 5)) = some (b, bl) ∧
      storage b bl = some art.bytes := by
  rw [add_artifact_eq] at h
  split at h
  · exact Except.noConfusion h
  · rename_i bn bln hsp
    split at h
    · exact Except.noConfusion h
    · rename_i bytes hst
      cases h
      exact ⟨rfl, rfl, rfl, bn, bln, hsp, hst⟩

/-- C2 (counterexample): the URI `"ab://b/c"` does not start with the
blob-storage scheme prefix `"gs://"`, yet `add_artifact_from_gcs` does not
fail on it — it saves an artifact (named `"c"`, fetched from bucket `"b"`),
because the adapter slices off the first five characters without validating
them. -/
theorem c2_no_scheme_check_counterexample :
    ¬ ("gs://".data <+: "ab://b/c".data) ∧
    add_artifact_from_gcs (fun _ _ => some [0]) "ab://b/c" =
      Except.ok { filename := "c", mime_type := none, bytes := [0],
                  scope := ArtifactScope.session } := by
  decide

/-- C2 (amended): the adapter never validates the scheme; it unconditionally
drops the first five characters of the URI and raises only the `ValueError`
from unpacking `split('/', 1)`, exactly when the remainder contains no `/`
(and then no artifact is saved, the call returning an error); when the
remainder does contain a `/` the call never raises that error, whatever the
URI's prefix was. -/
theorem c2_value_error_iff_no_slash (storage : String → String → Option (List Nat))
    (uri : String) :
    (¬ '/' ∈ uri.data.drop 5 →
      add_artifact_from_gcs storage uri = Except.error PyError.valueError) ∧
    ('/' ∈ uri.data.drop 5 →
      add_artifact_from_gcs storage uri ≠ Except.error PyError.valueError) := by
  constructor
  · intro h
    rw [add_artifact_eq]
    unfold splitOnce
    simp only [dataMk]
    rw [if_neg h]
  · intro h
    rw [add_artifact_eq]
    unfold splitOnce
    simp only [dataMk]
    rw [if_pos h]
    split
    · rename_i heq
      exact Option.noConfusion heq
    · split <;> simp

/-- C2 (witness): the amended theorem at the concrete URIs `"gs://bucketonly"`
(no `/` after the prefix: `ValueError`, nothing saved) and `"gs://b/c"`
(a `/` present: no `ValueError`). -/
theorem c2_value_error_iff_no_slash_witness :
    add_artifact_from_gcs (fun _ _ => some [0]) "gs://bucketonly" =
      Except.error PyError.valueError ∧
    add_artifact_from_gcs (fun _ _ => some [0]) "gs://b/c" ≠
      Except.error PyError.valueError := by
  constructor
  · exact (c2_value_error_iff_no_slash (fun _ _ => some [0]) "gs://bucketonly").1
      (by decide)
  · exact (c2_value_error_iff_no_slash (fun _ _ => some [0]) "gs://b/c").2
      (by decide)

/-- A string member of a joined list occurs contiguously in the join. -/
theorem substr_of_mem_joinStr (sep : String) {s : String} {l : List String}
    (h : s ∈ l) : s.data <:+: (joinStr sep l).data := by
  induction l with
  | nil => cases h
  | cons x rest ih =>
    cases h with
    | head =>
      cases rest with
      | nil => exact ⟨[], [], by simp [joinStr]⟩
      | cons y ys =>
        refine ⟨[], sep.data ++ (joinStr sep (y :: ys)).data, ?_⟩
        simp [joinStr, dataAppend, List.append_assoc]
    | tail _ hmem =>
      cases rest with
      | nil => cases hmem
      | cons y ys =>
        obtain ⟨u, v, huv⟩ := ih hmem
        refine ⟨(x ++ sep).data ++ u, v, ?_⟩
        calc ((x ++ sep).data ++ u) ++ s.data ++ v
            = (x ++ sep).data ++ (u ++ s.data ++ v) := by
              simp [List.append_assoc]
          _ = (x ++ sep).data ++ (joinStr sep (y :: ys)).data := by rw [huv]
          _ = (x ++ sep ++ joinStr sep (y :: ys)).data := (dataAppend _ _).symm
          _ = (joinStr sep (x :: y :: ys)).data := rfl

/-- Contiguous occurrence survives prefixing by another string. -/
theorem substr_append_left {x t : String} (s : String)
    (h : x.data <:+: t.data) : x.data <:+: (s ++ t).data := by
  obtain ⟨u, v, huv⟩ := h
  refine ⟨s.data ++ u, v, ?_⟩
  calc (s.data ++ u) ++ x.data ++ v = s.data ++ (u ++ x.data ++ v) := by
        simp [List.append_assoc]
    _ = s.data ++ t.data := by rw [huv]
    _ = (s ++ t).data := (dataAppend _ _).symm

theorem append_ne_empty_left {s : String} (t : String) (hs : s ≠ "") :
    s ++ t ≠ "" := by
  intro h
  apply hs
  have hd := congrArg String.data h
  rw [dataAppend] at hd
  have hnil : s.data = [] := (List.append_eq_nil.mp hd).1
  cases s with
  | mk cs => exact congrArg String.mk hnil

/-- C7: the artifact listing tool, as a total function of the underlying
service's outcome (totality is the never-raises property): on an empty
artifact set it returns exactly the fixed no-artifacts sentence; on a
non-empty set it returns the header followed by one hyphen-prefixed line per
filename, each name occurring contiguously in the output; on a `ValueError`
or any other exception it returns the corresponding error sentence; and it
returns a non-empty sentence in every case. -/
theorem c7_list_artifacts_total :
    (list_artifacts (ArtifactListOutcome.ok []) = "You have no saved artifacts.") ∧
    (∀ f fs,
      list_artifacts (ArtifactListOutcome.ok (f :: fs)) =
        "Here are your available Python artifacts:\n" ++
          joinStr "\n" ((f :: fs).map (fun x => "- " ++ x)) ∧
      ((f :: fs).map (fun x => "- " ++ x)).length = (f :: fs).length ∧
      (∀ x ∈ f :: fs,
        ("- " ++ x) ∈ (f :: fs).map (fun y => "- " ++ y) ∧
        ("- " ++ x).data <:+:
          (list_artifacts (ArtifactListOutcome.ok (f :: fs))).data)) ∧
    (∀ m, list_artifacts (ArtifactListOutcome.valueError m) =
      "Error: Could not list Python artifacts.") ∧
    (∀ m, list_artifacts (ArtifactListOutcome.otherError m) =
      "Error: An unexpected error occurred while listing Python artifacts.") ∧
    (∀ r, list_artifacts r ≠ "") := by
  refine ⟨rfl, ?_, fun m => rfl, fun m => rfl, ?_⟩
  · intro f fs
    refine ⟨rfl, by simp, ?_⟩
    intro x hx
    constructor
    · exact List.mem_map_of_mem (fun y => "- " ++ y) hx
    · have hj : ("- " ++ x).data <:+:
          (joinStr "\n" ((f :: fs).map (fun y => "- " ++ y))).data :=
        substr_of_mem_joinStr "\n" (List.mem_map_of_mem (fun y => "- " ++ y) hx)
      exact substr_append_left "Here are your available Python artifacts:\n" hj
  · intro r
    cases r with
    | ok files =>
      cases files with
      | nil => decide
      | cons f fs =>
        exact append_ne_empty_left _ (by decide)
    | valueError m =>
      show ("Error: Could not list Python artifacts." : String) ≠ ""
      decide
    | otherError m =>
      show ("Error: An unexpected error occurred while listing Python artifacts." :
        String) ≠ ""
      decide

/-- C7 (witness): the listing on the concrete set `{"a.pdf", "b.png"}` is the
two-line hyphen-prefixed listing, and `- b.png` occurs contiguously in it. -/
theorem c7_list_artifacts_total_witness :
    list_artifacts (ArtifactListOutcome.ok ["a.pdf", "b.png"]) =
      "Here are your available Python artifacts:\n- a.pdf\n- b.png" ∧
    ("- b.png").data <:+:
      (list_artifacts (ArtifactListOutcome.ok ["a.pdf", "b.png"])).data := by
  constructor
  · have h := (c7_list_artifacts_total.2.1 "a.pdf" ["b.png"]).1
    rw [h]
    decide
  · exact ((c7_list_artifacts_total.2.1 "a.pdf" ["b.png"]).2.2 "b.png"
      (by decide)).2

/-- Unfolding lemma for `process_asset` with the local `let` bindings
inlined. -/
theorem process_asset_eq (session_id : String)
    (run_async : String → String → String → Except String (List AgentEvent))
    (event : GcsEvent) :
    process_asset session_id run_async event =
      match run_async "gcs_trigger_user" session_id (model_dump_json event) with
      | Except.error e =>
          { response := { status_code := 500, body := RespBody.detail e }
            created_sessions := [{ app_name := "video_analysis_agent",
                                   session_id := session_id,
                                   user_id := "gcs_trigger_user" }] }
      | Except.ok events =>
          { response :=
              { status_code := 200
                body := RespBody.statusResponse "success"
                  (finalResponseText events) }
            created_sessions := [{ app_name := "video_analysis_agent",
                                   session_id := session_id,
                                   user_id := "gcs_trigger_user" }] } := rfl

/-- C8: every invocation of the worker handler creates exactly one session,
keyed by the app name, the freshly generated identifier passed in, and the
static automation user; and any two invocations whose generated identifiers
differ create distinct sessions. -/
theorem c8_one_fresh_session (session_id : String)
    (run_async : String → String → String → Except String (List AgentEvent))
    (event : GcsEvent) :
    (process_asset session_id run_async event).created_sessions =
      [{ app_name := "video_analysis_agent", session_id := session_id,
         user_id := "gcs_trigger_user" }] ∧
    (∀ sid2 run2 ev2, session_id ≠ sid2 →
      ∀ k1 ∈ (process_asset session_id run_async event).created_sessions,
      ∀ k2 ∈ (process_asset sid2 run2 ev2).created_sessions, k1 ≠ k2) := by
  have hc : ∀ (sid : String) run ev,
      (process_asset sid run ev).created_sessions =
        [{ app_name := "video_analysis_agent", session_id := sid,
           user_id := "gcs_trigger_user" }] := by
    intro sid run ev
    rw [process_asset_eq]
    cases run "gcs_trigger_user" sid (model_dump_json ev) <;> rfl
  refine ⟨hc _ _ _, ?_⟩
  intro sid2 run2 ev2 hne k1 hk1 k2 hk2
  rw [hc] at hk1 hk2
  simp only [List.mem_singleton] at hk1 hk2
  subst hk1
  subst hk2
  intro heq
  exact hne (congrArg SessionKey.session_id heq)

/-- C8 (witness): two concrete invocations with distinct fresh identifiers
create the two expected distinct sessions. -/
theorem c8_one_fresh_session_witness :
    (process_asset "sid-1" (fun _ _ _ => Except.ok [])
        { bucket := "b", name := "n" }).created_sessions =
      [{ app_name := "video_analysis_agent", session_id := "sid-1",
         user_id := "gcs_trigger_user" }] ∧
    ({ app_name := "video_analysis_agent", session_id := "sid-1",
       user_id := "gcs_trigger_user" : SessionKey } ≠
     { app_name := "video_analysis_agent", session_id := "sid-2",
       user_id := "gcs_trigger_user" }) := by
  have h := c8_one_fresh_session "sid-1" (fun _ _ _ => Except.ok [])
    { bucket := "b", name := "n" }
  refine ⟨h.1, ?_⟩
  exact h.2 "sid-2" (fun _ _ _ => Except.ok []) { bucket := "b", name := "n" }
    (by decide) _ (by rw [h.1]; exact List.mem_singleton.mpr rfl) _
    (by rw [(c8_one_fresh_session "sid-2" (fun _ _ _ => Except.ok [])
          { bucket := "b", name := "n" }).1]
        exact List.mem_singleton.mpr rfl)

theorem finalResponseText_no_final {events : List AgentEvent}
    (h : ∀ e ∈ events, e.is_final_response = false) :
    finalResponseText events = "Agent did not produce a final response." := by
  induction events with
  | nil => rfl
  | cons e rest ih =>
    have he : e.is_final_response = false := h e (List.mem_cons_self e rest)
    simp only [finalResponseText, he, Bool.false_eq_true, if_false]
    exact ih (fun x hx => h x (List.mem_cons_of_mem e hx))

theorem finalResponseText_append_no_final {pre : List AgentEvent}
    (l : List AgentEvent) (h : ∀ e ∈ pre, e.is_final_response = false) :
    finalResponseText (pre ++ l) = finalResponseText l := by
  induction pre with
  | nil => rfl
  | cons e rest ih =>
    have he : e.is_final_response = false := h e (List.mem_cons_self e rest)
    simp only [List.cons_append, finalResponseText, he, Bool.false_eq_true,
      if_false]
    exact ih (fun x hx => h x (List.mem_cons_of_mem e hx))

/-- C9: when the runner's stream contains no final-response event, or its
first final-response event has no content parts, the worker handler still
answers HTTP 200 with status `"success"` — with the fixed
no-final-response text when there is no escalation, and with a synthesized
escalation message when the final event escalated without content. An HTTP
200 `"success"` answer therefore does not witness workflow completion. -/
theorem c9_success_without_final_content (session_id : String)
    (run_async : String → String → String → Except String (List AgentEvent))
    (event : GcsEvent) (events : List AgentEvent)
    (hrun : run_async "gcs_trigger_user" session_id (model_dump_json event) =
      Except.ok events) :
    ((∀ e ∈ events, e.is_final_response = false) →
      (process_asset session_id run_async event).response =
        { status_code := 200
          body := RespBody.statusResponse "success"
            "Agent did not produce a final response." }) ∧
    (∀ pre fin rest, events = pre ++ fin :: rest →
      (∀ e ∈ pre, e.is_final_response = false) →
      fin.is_final_response = true → fin.content_parts = [] →
      ((fin.escalate = false →
        (process_asset session_id run_async event).response =
          { status_code := 200
            body := RespBody.statusResponse "success"
              "Agent did not produce a final response." }) ∧
       (fin.escalate = true →
        (process_asset session_id run_async event).response =
          { status_code := 200
            body := RespBody.statusResponse "success"
              ("Agent escalated: " ++
                pyOr fin.error_message "No specific message.") }))) := by
  constructor
  · intro hnf
    simp only [process_asset_eq, hrun, finalResponseText_no_final hnf]
  · intro pre fin rest hev hpre hfin hparts
    constructor
    · intro hesc
      simp only [process_asset_eq, hrun, hev,
        finalResponseText_append_no_final _ hpre]
      simp [finalResponseText, hfin, hparts, hesc]
    · intro hesc
      simp only [process_asset_eq, hrun, hev,
        finalResponseText_append_no_final _ hpre]
      simp [finalResponseText, hfin, hparts, hesc]

/-- C9 (witness): the theorem at a concrete empty stream (no final event) and
at a concrete stream whose only event is final, empty-content and
escalating with no error message. -/
theorem c9_success_without_final_content_witness :
    (process_asset "sid-1" (fun _ _ _ => Except.ok [])
        { bucket := "b", name := "n" }).response =
      { status_code := 200
        body := RespBody.statusResponse "success"
          "Agent did not produce a final response." } ∧
    (process_asset "sid-1"
        (fun _ _ _ => Except.ok
          [{ is_final_response := true, content_parts := [], escalate := true,
             error_message := none }])
        { bucket := "b", name := "n" }).response =
      { status_code := 200
        body := RespBody.statusResponse "success"
          "Agent escalated: No specific message." } := by
  constructor
  · exact (c9_success_without_final_content "sid-1" (fun _ _ _ => Except.ok [])
      { bucket := "b", name := "n" } [] rfl).1 (by intro e he; cases he)
  · exact (((c9_success_without_final_content "sid-1"
      (fun _ _ _ => Except.ok
        [{ is_final_response := true, content_parts := [], escalate := true,
           error_message := none }])
      { bucket := "b", name := "n" } _ rfl).2 []
      { is_final_response := true, content_parts := [], escalate := true,
        error_message := none } [] rfl (by intro e he; cases he) rfl rfl).2) rfl

/-- A JSON body offers a string field `key` when it is an object whose
member `key` is a JSON string (the shape pydantic v2 accepts for a declared
`str` field). -/
def hasStringField (body : JsonValue) (key : String) : Prop :=
  match body with
  | JsonValue.obj fields =>
    match lookupField fields key with
    | some (JsonValue.str _) => True
    | _ => False
  | _ => False

theorem validate_some_implies {body : JsonValue} {e : GcsEvent}
    (h : validateGcsEvent body = some e) :
    hasStringField body "bucket" ∧ hasStringField body "name" := by
  cases body with
  | obj fields =>
    simp only [validateGcsEvent] at h
    split at h
    · rename_i b n hb hn
      constructor
      · show (match lookupField fields "bucket" with
          | some (JsonValue.str _) => True
          | _ => False : Prop)
        rw [hb]
        trivial
      · show (match lookupField fields "name" with
          | some (JsonValue.str _) => True
          | _ => False : Prop)
        rw [hn]
        trivial
    · exact Option.noConfusion h
  | null => exact Option.noConfusion h
  | bool b => exact Option.noConfusion h
  | num n => exact Option.noConfusion h
  | str s => exact Option.noConfusion h
  | arr xs => exact Option.noConfusion h

/-- C10: a request body lacking the string field `bucket` or the string
field `name` is rejected by model validation on both endpoints — answered
`422`, with no queue task submitted or created and no session created, for
every queue client and every runner. -/
theorem c10_validation_rejects (body : JsonValue)
    (h : ¬ hasStringField body "bucket" ∨ ¬ hasStringField body "name") :
    ∀ (service_url service_email : String)
      (create_task : CloudTask → Except String Unit) (session_id : String)
      (run_async : String → String → String → Except String (List AgentEvent)),
      (gcs_trigger_endpoint service_url service_email create_task body).2 = [] ∧
      (gcs_trigger_endpoint service_url service_email create_task body).1.status_code
        = 422 ∧
      (process_asset_endpoint session_id run_async body).2 = [] ∧
      (process_asset_endpoint session_id run_async body).1.status_code = 422 := by
  intro service_url service_email create_task session_id run_async
  have hv : validateGcsEvent body = none := by
    cases hvv : validateGcsEvent body with
    | none => rfl
    | some e =>
      rcases validate_some_implies hvv with ⟨hb, hn⟩
      cases h with
      | inl hnb => exact absurd hb hnb
      | inr hnn => exact absurd hn hnn
  refine ⟨?_, ?_, ?_, ?_⟩ <;>
    simp [gcs_trigger_endpoint, process_asset_endpoint, hv]

/-- C10 (witness): a concrete body carrying only a string `bucket` member
(no `name`) is rejected by both endpoints with no task and no session. -/
theorem c10_validation_rejects_witness :
    (gcs_trigger_endpoint "https://svc" "sa@x" (fun _ => Except.ok ())
        (JsonValue.obj [("bucket", JsonValue.str "b1")])).2 = [] ∧
    (process_asset_endpoint "sid-1" (fun _ _ _ => Except.ok [])
        (JsonValue.obj [("bucket", JsonValue.str "b1")])).2 = [] := by
  have h := c10_validation_rejects (JsonValue.obj [("bucket", JsonValue.str "b1")])
    (Or.inr (by intro hf; simp [hasStringField, lookupField] at hf))
    "https://svc" "sa@x" (fun _ => Except.ok ()) "sid-1"
    (fun _ _ _ => Except.ok [])
  exact ⟨h.1, h.2.2.1⟩

theorem takeWhile_all {p : Char → Bool} {a : List Char}
    (h : ∀ x ∈ a, p x) : a.takeWhile p = a := by
  induction a with
  | nil => rfl
  | cons x xs ih =>
    have hx : p x := h x (List.mem_cons_self x xs)
    simp only [List.takeWhile_cons, hx, if_true]
    rw [ih (fun y hy => h y (List.mem_cons_of_mem x hy))]

/-- C5 (counterexample): the URI `"gs://b/.json"` has final path segment
`".json"`, which ends in `.json`; yet the artifact is saved with no content
type at all (`mimetypes` assigns no extension to a dotfile), not
`"text/plain"`. -/
theorem c5_dotfile_counterexample :
    afterLastSlash "gs://b/.json" = ".json" ∧
    add_artifact_from_gcs (fun _ _ => some [0]) "gs://b/.json" =
      Except.ok { filename := ".json", mime_type := none, bytes := [0],
                  scope := ArtifactScope.session } ∧
    (none : Option String) ≠ some "text/plain" := by
  refine ⟨by decide, by decide, by decide⟩

/-- C5 (amended): a saved artifact is never stored with content type
`application/json`; whenever the content type `mimetypes.guess_type` infers
for the stored filename (the URI's final path segment) is
`application/json`, the stored type is `text/plain`. A segment whose
inferred type is not `application/json` — such as the bare dotfile `.json`
of the counterexample, which gets no inferred type — is stored with that
inferred type unchanged. -/
theorem c5_json_stored_as_text (storage : String → String → Option (List Nat))
    (uri : String) (art : SavedArtifact)
    (h : add_artifact_from_gcs storage uri = Except.ok art) :
    art.mime_type ≠ some "application/json" ∧
    ((guess_type art.filename).1 = some "application/json" →
      art.mime_type = some "text/plain") ∧
    ((guess_type art.filename).1 ≠ some "application/json" →
      art.mime_type = (guess_type art.filename).1) := by
  obtain ⟨hfn, hmime, hscope, b, bl, hsp, hst⟩ := add_artifact_ok_inv h
  refine ⟨?_, ?_, ?_⟩
  · rw [hmime]
    split
    · decide
    · rename_i hng
      exact hng
  · intro hg
    rw [hfn] at hg
    rw [hmime, if_pos hg]
  · intro hg
    rw [hfn] at hg
    rw [hmime, if_neg hg, hfn]

/-- C5 (witness): the amended theorem at the concrete URI `"gs://b/a.json"`,
whose final segment's inferred type is `application/json` and whose artifact
is therefore stored as `text/plain`. -/
theorem c5_json_stored_as_text_witness :
    add_artifact_from_gcs (fun _ _ => some [0]) "gs://b/a.json" =
      Except.ok { filename := "a.json", mime_type := some "text/plain",
                  bytes := [0], scope := ArtifactScope.session } ∧
    ({ filename := "a.json", mime_type := some "text/plain", bytes := [0],
       scope := ArtifactScope.session : SavedArtifact }).mime_type =
      some "text/plain" := by
  constructor
  · decide
  · exact (c5_json_stored_as_text (fun _ _ => some [0]) "gs://b/a.json" _
      (by decide)).2.1 (by decide)

/-- The five-character slice of a well-formed URI `gs://b/p`. -/
theorem drop5_gs (b p : String) :
    ("gs://" ++ b ++ "/" ++ p).data.drop 5 = b.data ++ '/' :: p.data := by
  have h1 : ("gs://" ++ b ++ "/" ++ p).data =
      'g' :: 's' :: ':' :: '/' :: '/' :: (b.data ++ '/' :: p.data) := by
    have hg : "gs://".data = ['g', 's', ':', '/', '/'] := by decide
    have hs : "/".data = ['/'] := by decide
    simp [dataAppend, hg, hs, List.append_assoc]
  rw [h1]
  rfl

/-- Splitting `b ++ "/" ++ p` at the first slash recovers `b` and `p` when
`b` contains no slash. -/
theorem splitOnce_bucket (b p : String) (hb : ¬ '/' ∈ b.data) :
    splitOnce (String.mk (b.data ++ '/' :: p.data)) = some (b, p) := by
  unfold splitOnce
  simp only [dataMk]
  have hmem : '/' ∈ b.data ++ '/' :: p.data :=
    List.mem_append_right _ (List.mem_cons_self _ _)
  rw [if_pos hmem]
  have hall : ∀ x ∈ b.data, (fun c => (c ≠ '/' : Bool)) x = true := by
    intro x hx
    simp only [decide_eq_true_eq]
    intro heq
    exact hb (heq ▸ hx)
  have htake : (b.data ++ '/' :: p.data).takeWhile (fun c => c ≠ '/') = b.data := by
    rw [takeWhile_append_stop (by decide) _ _, takeWhile_all hall]
  have hdrop : ((b.data ++ '/' :: p.data).dropWhile (fun c => c ≠ '/')).drop 1
      = p.data := by
    rw [dropWhile_append_all _ hall]
    simp [List.dropWhile_cons]
  rw [htake, hdrop, mkData, mkData]

/-- The final path segment of `gs://b/p` is the final segment of `p`. -/
theorem afterLastSlash_through (b p : String) :
    afterLastSlash ("gs://" ++ b ++ "/" ++ p) = afterLastSlash p := by
  unfold afterLastSlash
  have h2 : ("gs://" ++ b ++ "/" ++ p).data.reverse =
      p.data.reverse ++ '/' :: (b.data.reverse ++ ['/', '/', ':', 's', 'g']) := by
    simp only [dataAppend, List.reverse_append]
    rw [(by decide : ("/".data.reverse : List Char) = ['/']),
        (by decide : ("gs://".data.reverse : List Char) = ['/', '/', ':', 's', 'g'])]
    rfl
  rw [h2, takeWhile_append_stop (by decide) _ _]

/-- C6: on the concrete URI `"gs://b/dir/name.pdf"` the adapter fetches
bucket `"b"` and object path `"dir/name.pdf"` (witnessed by a storage stub
answering only that pair) and saves the artifact under the filename
`"name.pdf"` in the session scope; in general, for every well-formed URI
`gs://b/p` (bucket free of slashes) the split recovers `(b, p)` and the
stored filename is the final segment of `p`; and every saved artifact
whose filename lacks the `user:` prefix is session-scoped. -/
theorem c6_uri_decomposition :
    (add_artifact_from_gcs
        (fun bu bl => if bu = "b" ∧ bl = "dir/name.pdf" then some [7] else none)
        "gs://b/dir/name.pdf" =
      Except.ok { filename := "name.pdf", mime_type := some "application/pdf",
                  bytes := [7], scope := ArtifactScope.session }) ∧
    (∀ (b p : String), ¬ '/' ∈ b.data →
      splitOnce (String.mk (("gs://" ++ b ++ "/" ++ p).data.drop 5)) = some (b, p) ∧
      afterLastSlash ("gs://" ++ b ++ "/" ++ p) = afterLastSlash p) ∧
    (∀ (storage : String → String → Option (List Nat)) (uri : String)
        (art : SavedArtifact),
      add_artifact_from_gcs storage uri = Except.ok art →
      ¬ ("user:".data <+: art.filename.data) →
      art.scope = ArtifactScope.session) := by
  refine ⟨by decide, ?_, ?_⟩
  · intro b p hb
    constructor
    · rw [drop5_gs, splitOnce_bucket b p hb]
    · exact afterLastSlash_through b p
  · intro storage uri art h hnp
    obtain ⟨hfn, hmime, hscope, _, _, _, _⟩ := add_artifact_ok_inv h
    rw [hfn] at hnp
    rw [hscope, if_neg hnp]

/-- C6 (witness): the general decomposition instantiated at the concrete
bucket `"b"` and path `"dir/name.pdf"`. -/
theorem c6_uri_decomposition_witness :
    splitOnce (String.mk (("gs://" ++ "b" ++ "/" ++ "dir/name.pdf").data.drop 5))
      = some ("b", "dir/name.pdf") ∧
    afterLastSlash ("gs://" ++ "b" ++ "/" ++ "dir/name.pdf") =
      afterLastSlash "dir/name.pdf" ∧
    afterLastSlash "dir/name.pdf" = "name.pdf" := by
  have h := c6_uri_decomposition.2.1 "b" "dir/name.pdf" (by decide)
  exact ⟨h.1, h.2, by decide⟩

end VideoAnalysisAgent
